import Mathlib

/-!
Verification of the IR metric evaluator (`Evaluate.py`).

The evaluator holds an in-memory qrels table (rows of query id, document id,
relevance label) and computes Hits@k, reciprocal rank and Precision@k per
query, plus their batch averages.  We embed the table as a `List Qrel`
ordered as the rows of the pandas frame, real arithmetic as `ℚ`, and Python
exceptions as an `Except PyErr` result: `PyErr.indexError` stands for the
`IndexError` (a `LookupError` subclass) raised by `.iloc[0]` on an empty
selection, `PyErr.valueError` for the explicit `raise ValueError`.
-/

set_option autoImplicit false

namespace Evaluate

/-- One row of the qrels table: `id_left` (query id), `id_right`
(document id), `label` (relevance label; `2` is the primary label). The
unused placeholder column of the file is dropped. -/
structure Qrel where
  id_left : Int
  id_right : Int
  label : Int
deriving DecidableEq

/-- The constant `EPS = 1e-12`, the zero-guard added to every averaging denominator. -/
def EPS : ℚ := 1 / 1000000000000

/-- Python exceptions the evaluator can raise. `indexError` models the
`IndexError` from `.iloc[0]` on an empty row selection (a subclass of
`LookupError`); `valueError` models the explicit `ValueError`. -/
inductive PyErr where
  | indexError
  | valueError (msg : String)
deriving DecidableEq

/-- The lookup expression shared verbatim by `_hits_at_k` and
`_reciprocal_rank`: filter the table to rows whose id_left equals the
query id and whose label equals 2, then take `.iloc[0]` and read id_right.
Returns the document id of the first matching row, `none` when no row
matches (Python raises `IndexError` there). -/
def primaryRelevant (qrels : List Qrel) (query_id : Int) : Option Int :=
  ((qrels.filter fun r => r.id_left == query_id && r.label == 2).head?).map Qrel.id_right

/-- Embeds `Eval._hits_at_k`: 1 if the primary-relevant document is among the
first `k` predictions, else 0; `IndexError` when the query has no
primary-labelled row. -/
def hits_at_k (qrels : List Qrel) (query_id : Int) (predict_ids : List Int) (k : ℕ) :
    Except PyErr ℕ :=
  match primaryRelevant qrels query_id with
  | none => .error .indexError
  | some golden =>
    let top_k_list := predict_ids.take k
    if golden ∈ top_k_list then .ok 1 else .ok 0

/-- Loop body of `Eval._avg_hits_at_k`, carrying `no_of_queries` and
`cum_hak`; running past the end of `predict_ids_list` is the `IndexError`
of `predict_ids_list[index]`. -/
def avg_hits_go (qrels : List Qrel) (k : ℕ) :
    List Int → List (List Int) → ℕ → ℕ → Except PyErr (ℕ × ℕ)
  | [], _, no_of_queries, cum_hak => .ok (no_of_queries, cum_hak)
  | _ :: _, [], _, _ => .error .indexError
  | query :: qs, predict_ids :: ps, no_of_queries, cum_hak =>
    if predict_ids.length < k then
      .error (.valueError "k is greater than number of predicted_id!")
    else
      match hits_at_k qrels query predict_ids k with
      | .error e => .error e
      | .ok hak => avg_hits_go qrels k qs ps (no_of_queries + 1) (cum_hak + hak)

/-- Embeds `Eval._avg_hits_at_k`: average of `hits_at_k` over the batch with the
`no_of_queries + EPS` denominator; aborts with `ValueError` when a
prediction list is shorter than `k` (checked before that query is
accumulated). -/
def avg_hits_at_k (qrels : List Qrel) (q_id_list : List Int)
    (predict_ids_list : List (List Int)) (k : ℕ) : Except PyErr ℚ :=
  (avg_hits_go qrels k q_id_list predict_ids_list 0 0).map
    fun nc => (nc.2 : ℚ) / ((nc.1 : ℚ) + EPS)

/-- Embeds `Eval._reciprocal_rank`: 0 when the primary-relevant document is absent
from the predictions, otherwise `1 / (index + 1)` with `index` the
zero-based position of its first occurrence (`list.index`). -/
def reciprocal_rank (qrels : List Qrel) (query_id : Int) (predict_ids : List Int) :
    Except PyErr ℚ :=
  match primaryRelevant qrels query_id with
  | none => .error .indexError
  | some golden =>
    if golden ∈ predict_ids then
      .ok (1 / ((predict_ids.indexOf golden : ℚ) + 1))
    else
      .ok 0

/-- Loop body of `Eval._mean_reciprocal_rank`. -/
def mrr_go (qrels : List Qrel) :
    List Int → List (List Int) → ℕ → ℚ → Except PyErr (ℕ × ℚ)
  | [], _, no_of_queries, cum_rr => .ok (no_of_queries, cum_rr)
  | _ :: _, [], _, _ => .error .indexError
  | query :: qs, predict_ids :: ps, no_of_queries, cum_rr =>
    match reciprocal_rank qrels query predict_ids with
    | .error e => .error e
    | .ok rr => mrr_go qrels qs ps (no_of_queries + 1) (cum_rr + rr)

/-- Embeds `Eval._mean_reciprocal_rank`: average reciprocal rank with the
`no_of_queries + EPS` denominator. -/
def mean_reciprocal_rank (qrels : List Qrel) (q_id_list : List Int)
    (predict_ids_list : List (List Int)) : Except PyErr ℚ :=
  (mrr_go qrels q_id_list predict_ids_list 0 0).map
    fun nc => nc.2 / ((nc.1 : ℚ) + EPS)

/-- The list called `golden` in `_prec_at_k`: the id_right of every row
whose id_left equals the query id, any label, with multiplicity, in table
order. -/
def goldenDocs (qrels : List Qrel) (query_id : Int) : List Int :=
  (qrels.filter fun r => r.id_left == query_id).map Qrel.id_right

/-- Embeds `Eval._prec_at_k`: the sentinel `-1` when the query has fewer than `k`
judged rows; otherwise `|set(golden) ∩ predict_ids[:k]| / (k + EPS)`. -/
def prec_at_k (qrels : List Qrel) (query_id : Int) (predict_ids : List Int) (k : ℕ) : ℚ :=
  let golden := goldenDocs qrels query_id
  if golden.length < k then -1
  else
    let truncated_list := predict_ids.take k
    let intersect := golden.dedup.filter fun g => g ∈ truncated_list
    (intersect.length : ℚ) / ((k : ℚ) + EPS)

/-- Loop body of `Eval._avg_prec_at_k`; the final component collects the
`(query, k)` pairs named by the "skipping ..." diagnostic prints, in
emission order. -/
def avg_prec_go (qrels : List Qrel) (k : ℕ) :
    List Int → List (List Int) → ℕ → ℚ → List (Int × ℕ) →
      Except PyErr (ℚ × ℕ × List (Int × ℕ))
  | [], _, no_of_queries, cum_prec, diags =>
    .ok (cum_prec / ((no_of_queries : ℚ) + EPS), no_of_queries, diags)
  | _ :: _, [], _, _, _ => .error .indexError
  | query :: qs, predict_ids :: ps, no_of_queries, cum_prec, diags =>
    let prec := prec_at_k qrels query predict_ids k
    if prec = -1 then
      avg_prec_go qrels k qs ps no_of_queries cum_prec (diags ++ [(query, k)])
    else
      avg_prec_go qrels k qs ps (no_of_queries + 1) (cum_prec + prec) diags

/-- Embeds `Eval._avg_prec_at_k`: averages `prec_at_k` over the queries whose
value is not the sentinel `-1`, returning the average (denominator
`no_of_queries + EPS`), the count of considered queries, and the emitted
diagnostics. -/
def avg_prec_at_k (qrels : List Qrel) (q_id_list : List Int)
    (predict_ids_list : List (List Int)) (k : ℕ) :
    Except PyErr (ℚ × ℕ × List (Int × ℕ)) :=
  avg_prec_go qrels k q_id_list predict_ids_list 0 0 []

/-- The values printed by `Eval.evaluate`: MRR, Hits@5, and
Precision@{5,10,20} each with its considered-query count. -/
structure Report where
  mrr : ℚ
  hits_5 : ℚ
  prec_5 : ℚ × ℕ
  prec_10 : ℚ × ℕ
  prec_20 : ℚ × ℕ
deriving DecidableEq

/-- Embeds `Eval.evaluate`: computes MRR, Hits@5 and Precision@{5,10,20} in order;
any exception aborts the whole call. -/
def evaluate (qrels : List Qrel) (q_id_list : List Int)
    (predict_ids_list : List (List Int)) : Except PyErr Report :=
  match mean_reciprocal_rank qrels q_id_list predict_ids_list with
  | .error e => .error e
  | .ok mrr =>
    match avg_hits_at_k qrels q_id_list predict_ids_list 5 with
    | .error e => .error e
    | .ok hits_5 =>
      match avg_prec_at_k qrels q_id_list predict_ids_list 5 with
      | .error e => .error e
      | .ok (prec_5, count_5, _) =>
        match avg_prec_at_k qrels q_id_list predict_ids_list 10 with
        | .error e => .error e
        | .ok (prec_10, count_10, _) =>
          match avg_prec_at_k qrels q_id_list predict_ids_list 20 with
          | .error e => .error e
          | .ok (prec_20, count_20, _) =>
            .ok ⟨mrr, hits_5, (prec_5, count_5), (prec_10, count_10), (prec_20, count_20)⟩

/-- The `Eval` object: its only attribute is the qrels table, assigned once
in `__init__` and never reassigned. -/
structure Eval where
  qrels : List Qrel
deriving DecidableEq

/-- Method call `self._hits_at_k(...)` as a state transformer: the body
only reads `self.qrels`, so the resulting object state is returned
alongside the value. -/
def Eval.hits_at_kM (e : Eval) (query_id : Int) (predict_ids : List Int) (k : ℕ) :
    Eval × Except PyErr ℕ :=
  (e, hits_at_k e.qrels query_id predict_ids k)

/-- Method call `self._avg_hits_at_k(...)` as a state transformer. -/
def Eval.avg_hits_at_kM (e : Eval) (q_id_list : List Int)
    (predict_ids_list : List (List Int)) (k : ℕ) : Eval × Except PyErr ℚ :=
  (e, avg_hits_at_k e.qrels q_id_list predict_ids_list k)

/-- Method call `self._reciprocal_rank(...)` as a state transformer. -/
def Eval.reciprocal_rankM (e : Eval) (query_id : Int) (predict_ids : List Int) :
    Eval × Except PyErr ℚ :=
  (e, reciprocal_rank e.qrels query_id predict_ids)

/-- Method call `self._mean_reciprocal_rank(...)` as a state transformer. -/
def Eval.mean_reciprocal_rankM (e : Eval) (q_id_list : List Int)
    (predict_ids_list : List (List Int)) : Eval × Except PyErr ℚ :=
  (e, mean_reciprocal_rank e.qrels q_id_list predict_ids_list)

/-- Method call `self._prec_at_k(...)` as a state transformer. -/
def Eval.prec_at_kM (e : Eval) (query_id : Int) (predict_ids : List Int) (k : ℕ) :
    Eval × ℚ :=
  (e, prec_at_k e.qrels query_id predict_ids k)

/-- Method call `self._avg_prec_at_k(...)` as a state transformer. -/
def Eval.avg_prec_at_kM (e : Eval) (q_id_list : List Int)
    (predict_ids_list : List (List Int)) (k : ℕ) :
    Eval × Except PyErr (ℚ × ℕ × List (Int × ℕ)) :=
  (e, avg_prec_at_k e.qrels q_id_list predict_ids_list k)

/-- Method call `self.evaluate(...)` as a state transformer. -/
def Eval.evaluateM (e : Eval) (q_id_list : List Int)
    (predict_ids_list : List (List Int)) : Eval × Except PyErr Report :=
  (e, evaluate e.qrels q_id_list predict_ids_list)

/-- The relevant set as the specification words it for Precision@k: the
distinct document ids judged for the query with a positive relevance label
(primary `2` or secondary `1`). -/
def positiveRelevantSet (qrels : List Qrel) (query_id : Int) : List Int :=
  ((qrels.filter fun r => r.id_left == query_id && 0 < r.label).map Qrel.id_right).dedup

/-- The relevant set as `all_relevant` words it: the set of distinct
document ids judged for the query, any label. -/
def allRelevantSet (qrels : List Qrel) (query_id : Int) : List Int :=
  (goldenDocs qrels query_id).dedup


/-- The queries of a zipped batch whose precision is not the sentinel. -/
def consideredPairs (qrels : List Qrel) (k : ℕ) (l : List (Int × List Int)) :
    List (Int × List Int) :=
  l.filter fun qp => prec_at_k qrels qp.1 qp.2 k ≠ -1

/-- The queries of a zipped batch whose precision is the sentinel. -/
def skippedPairs (qrels : List Qrel) (k : ℕ) (l : List (Int × List Int)) :
    List (Int × List Int) :=
  l.filter fun qp => prec_at_k qrels qp.1 qp.2 k = -1

/-- Sum of the per-query precisions over a zipped batch. -/
def precSum (qrels : List Qrel) (k : ℕ) (l : List (Int × List Int)) : ℚ :=
  (l.map fun qp => prec_at_k qrels qp.1 qp.2 k).sum

/-! ## Helper lemmas -/

/-- Python list.index: if position `pos` holds `g` and `g` does not occur
earlier, then `indexOf` returns `pos`. -/
theorem indexOf_eq_of_first_occurrence (g : Int) :
    ∀ (l : List Int) (pos : ℕ) (h1 : pos < l.length),
      l.get ⟨pos, h1⟩ = g → g ∉ l.take pos → l.indexOf g = pos := by
  intro l
  induction l with
  | nil => intro pos h1; exact absurd h1 (by simp)
  | cons x xs ih =>
    intro pos h1 hget htake
    cases pos with
    | zero =>
      simp only [List.get] at hget
      subst hget
      exact List.indexOf_cons_self x xs
    | succ p =>
      simp only [List.take_succ_cons, List.mem_cons, not_or] at htake
      have hne : x ≠ g := fun h => htake.1 h.symm
      rw [List.indexOf_cons_ne xs hne]
      exact congrArg Nat.succ (ih p (Nat.lt_of_succ_lt_succ h1) hget htake.2)

/-- Counting the distinct elements of `l` that occur in `sel` equals the
cardinality of the finset intersection. -/
theorem length_dedup_filter_eq_card (l sel : List Int) :
    (l.dedup.filter fun g => g ∈ sel).length = (l.toFinset ∩ sel.toFinset).card := by
  rw [← List.toFinset_card_of_nodup ((List.nodup_dedup l).filter _)]
  congr 1
  ext a
  simp [List.mem_filter, List.mem_dedup, Finset.mem_inter]

theorem k_add_EPS_pos (k : ℕ) : (0 : ℚ) < (k : ℚ) + EPS := by
  have h : (0 : ℚ) < EPS := by norm_num [EPS]
  exact add_pos_of_nonneg_of_pos (Nat.cast_nonneg k) h

/-- The non-sentinel branch of `prec_at_k`, written out. -/
theorem prec_at_k_of_not_lt (qrels : List Qrel) (q : Int) (preds : List Int) (k : ℕ)
    (h : ¬ (goldenDocs qrels q).length < k) :
    prec_at_k qrels q preds k =
      (((goldenDocs qrels q).dedup.filter fun g => g ∈ preds.take k).length : ℚ) /
        ((k : ℚ) + EPS) := by
  simp [prec_at_k, h]

/-- A non-sentinel precision is nonnegative. -/
theorem prec_at_k_nonneg (qrels : List Qrel) (q : Int) (preds : List Int) (k : ℕ)
    (h : ¬ (goldenDocs qrels q).length < k) :
    0 ≤ prec_at_k qrels q preds k := by
  rw [prec_at_k_of_not_lt qrels q preds k h]
  exact div_nonneg (Nat.cast_nonneg _) (le_of_lt (k_add_EPS_pos k))

/-- The sentinel is returned exactly on the short-pool branch. -/
theorem prec_at_k_eq_neg_one_iff (qrels : List Qrel) (q : Int) (preds : List Int) (k : ℕ) :
    prec_at_k qrels q preds k = -1 ↔ (goldenDocs qrels q).length < k := by
  by_cases h : (goldenDocs qrels q).length < k
  · simp [prec_at_k, h]
  · have h0 := prec_at_k_nonneg qrels q preds k h
    constructor
    · intro hc
      rw [hc] at h0
      norm_num at h0
    · intro hc
      exact absurd hc h

/-! ## Claims -/

/-- C1: for every query that has a primary-labelled row with document `g`
and every prediction list, `reciprocal_rank` returns 0 when `g` is absent
from the predictions, and otherwise `1 / (pos + 1)` where `pos` is the
zero-based index of the first occurrence of `g` (top slot 1, second slot
1/2). -/
theorem claim1_reciprocal_rank (qrels : List Qrel) (q g : Int) (preds : List Int)
    (hg : primaryRelevant qrels q = some g) :
    (g ∉ preds → reciprocal_rank qrels q preds = .ok 0) ∧
    (∀ (pos : ℕ) (h1 : pos < preds.length), preds.get ⟨pos, h1⟩ = g → g ∉ preds.take pos →
      reciprocal_rank qrels q preds = .ok (1 / ((pos : ℚ) + 1))) := by
  constructor
  · intro hab
    simp [reciprocal_rank, hg, hab]
  · intro pos h1 hget htake
    have hmem : g ∈ preds := hget ▸ preds.get_mem pos h1
    have hidx : preds.indexOf g = pos := indexOf_eq_of_first_occurrence g preds pos h1 hget htake
    simp [reciprocal_rank, hg, hmem, hidx]

theorem claim1_witness :
    primaryRelevant [⟨1, 7, 2⟩] 1 = some 7 ∧
    reciprocal_rank [⟨1, 7, 2⟩] 1 [3, 7, 9] = .ok (1 / 2) := by
  refine ⟨rfl, ?_⟩
  have h := (claim1_reciprocal_rank [⟨1, 7, 2⟩] 1 7 [3, 7, 9] rfl).2 1 (by norm_num)
    (by rfl) (by decide)
  rw [h]
  norm_num

/-- C6: a query with no primary-labelled row makes both metrics that use
the primary lookup fail with the IndexError (a LookupError subclass) of
iloc, not with a sentinel. -/
theorem claim6_lookup_failure (qrels : List Qrel) (q : Int) (preds : List Int) (k : ℕ)
    (h : primaryRelevant qrels q = none) :
    hits_at_k qrels q preds k = .error .indexError ∧
    reciprocal_rank qrels q preds = .error .indexError := by
  constructor <;> simp [hits_at_k, reciprocal_rank, h]

theorem claim6_witness :
    primaryRelevant [] 1 = none ∧
    (hits_at_k [] 1 [3] 5 = .error .indexError ∧
      reciprocal_rank [] 1 [3] = .error .indexError) :=
  ⟨rfl, claim6_lookup_failure [] 1 [3] 5 rfl⟩

/-- C7 counterexample: a direct per-query call with a prediction list
shorter than k does not raise: it returns a value (here a hit, since the
primary document sits inside the truncated list). -/
theorem claim7_cex :
    ([5] : List Int).length < 3 ∧ hits_at_k [⟨1, 5, 2⟩] 1 [5] 3 = .ok 1 := by
  exact ⟨by norm_num, by rfl⟩

/-- C7 amended: on a prediction list shorter than k, a direct call to
`hits_at_k` does not raise: it scores the hit over the whole (truncated)
list; the length violation raises (ValueError) only through the batch
entry `avg_hits_at_k`. -/
theorem claim7_amended (qrels : List Qrel) (q g : Int) (preds : List Int) (k : ℕ)
    (hshort : preds.length < k) (hg : primaryRelevant qrels q = some g) :
    hits_at_k qrels q preds k = .ok (if g ∈ preds then 1 else 0) ∧
    avg_hits_at_k qrels [q] [preds] k =
      .error (.valueError "k is greater than number of predicted_id!") := by
  have ht : preds.take k = preds := List.take_of_length_le (le_of_lt hshort)
  constructor
  · simp only [hits_at_k, hg, ht]
    split <;> rfl
  · simp [avg_hits_at_k, avg_hits_go, Except.map, hshort]

theorem claim7_witness :
    ([] : List Int).length < 1 ∧
    primaryRelevant [⟨1, 5, 2⟩] 1 = some 5 ∧
    (hits_at_k [⟨1, 5, 2⟩] 1 [] 1 = .ok 0 ∧
      avg_hits_at_k [⟨1, 5, 2⟩] [1] [[]] 1 =
        .error (.valueError "k is greater than number of predicted_id!")) := by
  refine ⟨by norm_num, rfl, ?_⟩
  have h := claim7_amended [⟨1, 5, 2⟩] 1 5 [] 1 (by norm_num) rfl
  simpa using h

/-- C8: the empty batch returns 0 for every averaged metric (and count 0
and no diagnostics for Precision@k) because the denominator is
count + EPS with EPS = 1e-12, rather than raising or dividing by zero. -/
theorem claim8_empty_batch (qrels : List Qrel) (k : ℕ) :
    avg_hits_at_k qrels [] [] k = .ok 0 ∧
    mean_reciprocal_rank qrels [] [] = .ok 0 ∧
    avg_prec_at_k qrels [] [] k = .ok (0, 0, []) ∧
    EPS = 1 / 1000000000000 := by
  refine ⟨?_, ?_, ?_, rfl⟩ <;>
    simp [avg_hits_at_k, avg_hits_go, mean_reciprocal_rank, mrr_go, avg_prec_at_k,
      avg_prec_go, Except.map]

/-- C10 (implicit): when `prec_at_k` does not take the sentinel branch its
value lies in [0, k/(k+EPS)]; in particular it is never -1, so the
sentinel test of `avg_prec_at_k` cannot misfire on a genuine precision. -/
theorem claim10_range (qrels : List Qrel) (q : Int) (preds : List Int) (k : ℕ)
    (h : ¬ (goldenDocs qrels q).length < k) :
    0 ≤ prec_at_k qrels q preds k ∧
    prec_at_k qrels q preds k ≤ (k : ℚ) / ((k : ℚ) + EPS) ∧
    prec_at_k qrels q preds k ≠ -1 := by
  have h0 := prec_at_k_nonneg qrels q preds k h
  refine ⟨h0, ?_, ?_⟩
  · rw [prec_at_k_of_not_lt qrels q preds k h]
    have hlen : ((goldenDocs qrels q).dedup.filter fun g => g ∈ preds.take k).length ≤ k := by
      rw [length_dedup_filter_eq_card]
      calc ((goldenDocs qrels q).toFinset ∩ (preds.take k).toFinset).card
          ≤ (preds.take k).toFinset.card := Finset.card_le_card Finset.inter_subset_right
        _ ≤ (preds.take k).length := List.toFinset_card_le _
        _ ≤ k := preds.length_take_le k
    rw [div_le_div_iff_of_pos_right (k_add_EPS_pos k)]
    exact_mod_cast hlen
  · intro hc
    rw [hc] at h0
    norm_num at h0

theorem claim10_witness :
    ¬ ((goldenDocs [⟨1, 1, 1⟩] 1).length < 1) ∧
    (0 ≤ prec_at_k [⟨1, 1, 1⟩] 1 [] 1 ∧
      prec_at_k [⟨1, 1, 1⟩] 1 [] 1 ≤ ((1 : ℕ) : ℚ) / (((1 : ℕ) : ℚ) + EPS) ∧
      prec_at_k [⟨1, 1, 1⟩] 1 [] 1 ≠ -1) :=
  ⟨by norm_num [goldenDocs], claim10_range [⟨1, 1, 1⟩] 1 [] 1 (by norm_num [goldenDocs])⟩

/-- C4 counterexample: with two judged rows for the same document (labels
1 and 2), the query has a single relevant document, fewer than k = 2, yet
`prec_at_k` does not return the sentinel: it scores 0. -/
theorem claim4_cex :
    (allRelevantSet [⟨1, 5, 1⟩, ⟨1, 5, 2⟩] 1).length < 2 ∧
    prec_at_k [⟨1, 5, 1⟩, ⟨1, 5, 2⟩] 1 [] 2 = 0 ∧
    prec_at_k [⟨1, 5, 1⟩, ⟨1, 5, 2⟩] 1 [] 2 ≠ -1 := by
  refine ⟨by norm_num [allRelevantSet, goldenDocs, List.dedup], ?_, ?_⟩ <;>
    norm_num [prec_at_k, goldenDocs, List.dedup]

/-- C4 amended: `prec_at_k` returns the sentinel -1 exactly when the query
has fewer than k judged rows (counted with multiplicity, any label),
regardless of the prediction list, and it never raises (it is a total
function). -/
theorem claim4_amended (qrels : List Qrel) (q : Int) (preds preds2 : List Int) (k : ℕ) :
    (prec_at_k qrels q preds k = -1 ↔ (goldenDocs qrels q).length < k) ∧
    (prec_at_k qrels q preds k = -1 ↔ prec_at_k qrels q preds2 k = -1) := by
  refine ⟨prec_at_k_eq_neg_one_iff qrels q preds k, ?_⟩
  rw [prec_at_k_eq_neg_one_iff qrels q preds k, prec_at_k_eq_neg_one_iff qrels q preds2 k]

/-- C2 counterexample: the query has one positively labelled document (5),
so its spec-side relevant set R satisfies the |R| >= k premise at k = 1,
but the code scores the label-0 row as a hit: the prediction [6] receives
precision 1/(1+EPS), not |R ∩ [6]| / (1+EPS) = 0. -/
theorem claim2_cex :
    1 ≤ (positiveRelevantSet [⟨1, 5, 1⟩, ⟨1, 6, 0⟩] 1).length ∧
    prec_at_k [⟨1, 5, 1⟩, ⟨1, 6, 0⟩] 1 [6] 1 ≠
      (((positiveRelevantSet [⟨1, 5, 1⟩, ⟨1, 6, 0⟩] 1).filter fun g =>
          g ∈ ([6] : List Int).take 1).length : ℚ) / ((1 : ℚ) + EPS) := by
  constructor
  · norm_num [positiveRelevantSet, List.dedup]
  · norm_num [prec_at_k, goldenDocs, positiveRelevantSet, List.dedup, List.filter, EPS]

/-- C2 amended: the evaluable premise is that the query has at least k
judged rows (any label, with multiplicity); then `prec_at_k` returns the
number of distinct judged documents among the first k predictions — any
label counts, not only positive ones — divided by k + EPS. -/
theorem claim2_amended (qrels : List Qrel) (q : Int) (preds : List Int) (k : ℕ)
    (h : ¬ (goldenDocs qrels q).length < k) :
    prec_at_k qrels q preds k =
      (((goldenDocs qrels q).toFinset ∩ (preds.take k).toFinset).card : ℚ) /
        ((k : ℚ) + EPS) := by
  rw [prec_at_k_of_not_lt qrels q preds k h, length_dedup_filter_eq_card]

theorem claim2_witness :
    ¬ ((goldenDocs [⟨1, 1, 1⟩, ⟨1, 2, 1⟩, ⟨1, 3, 1⟩] 1).length < 3) ∧
    prec_at_k [⟨1, 1, 1⟩, ⟨1, 2, 1⟩, ⟨1, 3, 1⟩] 1 [1, 5, 2] 3 =
      (((goldenDocs [⟨1, 1, 1⟩, ⟨1, 2, 1⟩, ⟨1, 3, 1⟩] 1).toFinset ∩
          (([1, 5, 2] : List Int).take 3).toFinset).card : ℚ) / (((3 : ℕ) : ℚ) + EPS) :=
  ⟨by norm_num [goldenDocs],
    claim2_amended [⟨1, 1, 1⟩, ⟨1, 2, 1⟩, ⟨1, 3, 1⟩] 1 [1, 5, 2] 3 (by norm_num [goldenDocs])⟩

/-- Invariant of the `_avg_prec_at_k` loop: starting from accumulators
n, c, d, it returns the accumulated sum over the non-sentinel queries, the
accumulated count, and the accumulated diagnostics, with the
count + EPS denominator. -/
theorem avg_prec_go_eq (qrels : List Qrel) (k : ℕ) :
    ∀ (qs : List Int) (ps : List (List Int)), qs.length = ps.length →
    ∀ (n : ℕ) (c : ℚ) (d : List (Int × ℕ)),
      avg_prec_go qrels k qs ps n c d = .ok
        ((c + precSum qrels k (consideredPairs qrels k (qs.zip ps))) /
            (((n + (consideredPairs qrels k (qs.zip ps)).length : ℕ) : ℚ) + EPS),
          n + (consideredPairs qrels k (qs.zip ps)).length,
          d ++ (skippedPairs qrels k (qs.zip ps)).map fun qp => (qp.1, k)) := by
  intro qs
  induction qs with
  | nil =>
    intro ps hlen n c d
    simp [avg_prec_go, consideredPairs, skippedPairs, precSum]
  | cons q qs ih =>
    intro ps hlen n c d
    cases ps with
    | nil => simp at hlen
    | cons p ps =>
      simp only [List.length_cons] at hlen
      have hlen2 : qs.length = ps.length := by omega
      by_cases hP : prec_at_k qrels q p k = -1
      · rw [show avg_prec_go qrels k (q :: qs) (p :: ps) n c d =
            avg_prec_go qrels k qs ps n c (d ++ [(q, k)]) by
          simp [avg_prec_go, hP]]
        rw [ih ps hlen2 n c (d ++ [(q, k)])]
        simp [consideredPairs, skippedPairs, precSum, List.filter_cons, hP]
      · rw [show avg_prec_go qrels k (q :: qs) (p :: ps) n c d =
            avg_prec_go qrels k qs ps (n + 1) (c + prec_at_k qrels q p k) d by
          simp [avg_prec_go, hP]]
        rw [ih ps hlen2 (n + 1) (c + prec_at_k qrels q p k) d]
        simp only [consideredPairs, skippedPairs, precSum, List.zip_cons_cons,
          List.filter_cons, hP, decide_not, List.map_cons, List.sum_cons,
          decide_False, Bool.not_false, if_true, ite_true, List.length_cons,
          Except.ok.injEq, Prod.mk.injEq]
        refine ⟨?_, ?_, rfl⟩
        · push_cast
          ring
        · omega

/-- C3: `avg_prec_at_k` skips exactly the sentinel-returning queries,
excluding them from both the numerator and the returned count, records one
diagnostic (query, k) per skipped query in order, and returns the sum of
the non-skipped precisions over count + EPS together with the count; a
batch where every query is skipped yields average 0 and count 0. -/
theorem claim3_avg_prec (qrels : List Qrel) (qs : List Int) (ps : List (List Int)) (k : ℕ)
    (hlen : qs.length = ps.length) :
    avg_prec_at_k qrels qs ps k = .ok
      (precSum qrels k (consideredPairs qrels k (qs.zip ps)) /
          (((consideredPairs qrels k (qs.zip ps)).length : ℚ) + EPS),
        (consideredPairs qrels k (qs.zip ps)).length,
        (skippedPairs qrels k (qs.zip ps)).map fun qp => (qp.1, k)) ∧
    ((∀ qp ∈ qs.zip ps, prec_at_k qrels qp.1 qp.2 k = -1) →
      avg_prec_at_k qrels qs ps k = .ok (0, 0, (qs.zip ps).map fun qp => (qp.1, k))) := by
  have hmain := avg_prec_go_eq qrels k qs ps hlen 0 0 []
  constructor
  · simpa [avg_prec_at_k] using hmain
  · intro hall
    have hcons : consideredPairs qrels k (qs.zip ps) = [] := by
      simp only [consideredPairs, List.filter_eq_nil_iff]
      intro a ha
      simp [hall a ha]
    have hskip : skippedPairs qrels k (qs.zip ps) = qs.zip ps := by
      simp only [skippedPairs, List.filter_eq_self]
      intro a ha
      simp [hall a ha]
    rw [avg_prec_at_k, hmain, hcons, hskip]
    simp [precSum]

theorem claim3_witness :
    ([1, 2, 3] : List Int).length = ([[1], [2], [3]] : List (List Int)).length ∧
    (consideredPairs [⟨1, 1, 1⟩, ⟨2, 1, 1⟩] 1 (([1, 2, 3] : List Int).zip [[1], [2], [3]])).length = 2 ∧
    avg_prec_at_k [⟨1, 1, 1⟩, ⟨2, 1, 1⟩] [1, 2, 3] [[1], [2], [3]] 1 = .ok
      (precSum [⟨1, 1, 1⟩, ⟨2, 1, 1⟩] 1
          (consideredPairs [⟨1, 1, 1⟩, ⟨2, 1, 1⟩] 1 (([1, 2, 3] : List Int).zip [[1], [2], [3]])) /
          (((consideredPairs [⟨1, 1, 1⟩, ⟨2, 1, 1⟩] 1
              (([1, 2, 3] : List Int).zip [[1], [2], [3]])).length : ℚ) + EPS),
        (consideredPairs [⟨1, 1, 1⟩, ⟨2, 1, 1⟩] 1
          (([1, 2, 3] : List Int).zip [[1], [2], [3]])).length,
        (skippedPairs [⟨1, 1, 1⟩, ⟨2, 1, 1⟩] 1
          (([1, 2, 3] : List Int).zip [[1], [2], [3]])).map fun qp => (qp.1, 1)) := by
  refine ⟨rfl, ?_, (claim3_avg_prec [⟨1, 1, 1⟩, ⟨2, 1, 1⟩] [1, 2, 3] [[1], [2], [3]] 1 rfl).1⟩
  have h1 : prec_at_k [⟨1, 1, 1⟩, ⟨2, 1, 1⟩] 1 [1] 1 = 1 / (1 + EPS) := by
    norm_num [prec_at_k, goldenDocs, EPS, List.dedup]
  have h2 : prec_at_k [⟨1, 1, 1⟩, ⟨2, 1, 1⟩] 2 [2] 1 = 0 := by
    norm_num [prec_at_k, goldenDocs, EPS, List.dedup]
  have h3 : prec_at_k [⟨1, 1, 1⟩, ⟨2, 1, 1⟩] 3 [3] 1 = -1 := by
    norm_num [prec_at_k, goldenDocs]
  rw [consideredPairs]
  simp only [List.zip_cons_cons, List.zip_nil_left, List.filter_cons, List.filter_nil,
    h1, h2, h3]
  norm_num [EPS]

/-- C5 counterexample: the second prediction list is shorter than k, yet
the batch call fails with the lookup IndexError of the first query (whose
list is long enough but which has no primary-labelled row), not with the
ValueError-class length failure the claim promises for every such batch. -/
theorem claim5_cex :
    (([] : List Int)).length < 1 ∧
    avg_hits_at_k [] [1, 2] [[5], []] 1 = .error .indexError ∧
    avg_hits_at_k [] [1, 2] [[5], []] 1 ≠
      .error (.valueError "k is greater than number of predicted_id!") := by
  have h : avg_hits_at_k [] [1, 2] [[5], []] 1 = .error .indexError := by
    norm_num [avg_hits_at_k, avg_hits_go, hits_at_k, primaryRelevant, Except.map]
  refine ⟨by norm_num, h, ?_⟩
  rw [h]
  simp

/-- The `_avg_hits_at_k` loop hits its ValueError as soon as it reaches a
short prediction list, provided every earlier query passed its length
check and its primary lookup. -/
theorem avg_hits_go_value_error (qrels : List Qrel) (k : ℕ) :
    ∀ (qs1 : List Int) (ps1 : List (List Int)) (q : Int) (p : List Int)
      (qs2 : List Int) (ps2 : List (List Int)) (n c : ℕ),
      qs1.length = ps1.length →
      (∀ pair ∈ qs1.zip ps1, ¬ pair.2.length < k ∧ (primaryRelevant qrels pair.1).isSome) →
      p.length < k →
      avg_hits_go qrels k (qs1 ++ q :: qs2) (ps1 ++ p :: ps2) n c =
        .error (.valueError "k is greater than number of predicted_id!") := by
  intro qs1
  induction qs1 with
  | nil =>
    intro ps1 q p qs2 ps2 n c hlen hok hshort
    have hps1 : ps1 = [] := List.length_eq_zero.mp hlen.symm
    subst hps1
    simp [avg_hits_go, hshort]
  | cons a qs1 ih =>
    intro ps1 q p qs2 ps2 n c hlen hok hshort
    cases ps1 with
    | nil => simp at hlen
    | cons b ps1 =>
      simp only [List.length_cons] at hlen
      have hhead := hok (a, b) (by simp [List.zip_cons_cons])
      obtain ⟨g, hg⟩ := Option.isSome_iff_exists.mp hhead.2
      have hstep : avg_hits_go qrels k ((a :: qs1) ++ q :: qs2) ((b :: ps1) ++ p :: ps2) n c =
          avg_hits_go qrels k (qs1 ++ q :: qs2) (ps1 ++ p :: ps2) (n + 1)
            (c + if g ∈ b.take k then 1 else 0) := by
        simp only [List.cons_append, avg_hits_go, if_neg hhead.1, hits_at_k, hg]
        by_cases hm : g ∈ b.take k
        · simp [hm]
        · simp [hm]
      rw [hstep]
      exact ih ps1 q p qs2 ps2 (n + 1) (c + if g ∈ b.take k then 1 else 0) (by omega)
        (fun pair hp => hok pair (by simp [List.zip_cons_cons]; right; simpa using hp)) hshort

/-- C5 amended: a batch containing a prediction list shorter than k aborts
with the ValueError-class failure, with no partial result, provided every
query before the offending one passes its own length check and primary
lookup (otherwise an earlier IndexError aborts the batch first); the
length check fires before the offending query is accumulated. -/
theorem claim5_amended (qrels : List Qrel) (k : ℕ) (qs1 : List Int)
    (ps1 : List (List Int)) (q : Int) (p : List Int) (qs2 : List Int)
    (ps2 : List (List Int)) (hlen : qs1.length = ps1.length)
    (hok : ∀ pair ∈ qs1.zip ps1, ¬ pair.2.length < k ∧ (primaryRelevant qrels pair.1).isSome)
    (hshort : p.length < k) :
    avg_hits_at_k qrels (qs1 ++ q :: qs2) (ps1 ++ p :: ps2) k =
      .error (.valueError "k is greater than number of predicted_id!") := by
  rw [avg_hits_at_k, avg_hits_go_value_error qrels k qs1 ps1 q p qs2 ps2 0 0 hlen hok hshort]
  rfl

theorem claim5_witness :
    ([1] : List Int).length = ([[5]] : List (List Int)).length ∧
    (∀ pair ∈ ([1] : List Int).zip [[5]],
      ¬ (pair.2 : List Int).length < 1 ∧ (primaryRelevant [⟨1, 5, 2⟩] pair.1).isSome) ∧
    ([] : List Int).length < 1 ∧
    avg_hits_at_k [⟨1, 5, 2⟩] [1, 2] [[5], []] 1 =
      .error (.valueError "k is greater than number of predicted_id!") := by
  refine ⟨rfl, ?_, by norm_num, ?_⟩
  · intro pair hp
    simp only [List.zip_cons_cons, List.zip_nil_left, List.mem_singleton] at hp
    subst hp
    exact ⟨by norm_num, by rfl⟩
  · exact claim5_amended [⟨1, 5, 2⟩] 1 [1] [[5]] 2 [] [] [] rfl
      (by
        intro pair hp
        simp only [List.zip_cons_cons, List.zip_nil_left, List.mem_singleton] at hp
        subst hp
        exact ⟨by norm_num, by rfl⟩)
      (by norm_num)

/-- C9: every metric method is a pure function of its arguments and the
table: the object state after any call equals the state before, and a
repeated call on the state returned by a first call returns the same
result as the first call. -/
theorem claim9_purity (e : Eval) (query_id : Int) (predict_ids : List Int) (k : ℕ)
    (q_id_list : List Int) (predict_ids_list : List (List Int)) :
    (e.hits_at_kM query_id predict_ids k).1 = e ∧
    (e.avg_hits_at_kM q_id_list predict_ids_list k).1 = e ∧
    (e.reciprocal_rankM query_id predict_ids).1 = e ∧
    (e.mean_reciprocal_rankM q_id_list predict_ids_list).1 = e ∧
    (e.prec_at_kM query_id predict_ids k).1 = e ∧
    (e.avg_prec_at_kM q_id_list predict_ids_list k).1 = e ∧
    (e.evaluateM q_id_list predict_ids_list).1 = e ∧
    ((e.hits_at_kM query_id predict_ids k).1.hits_at_kM query_id predict_ids k).2 =
      (e.hits_at_kM query_id predict_ids k).2 ∧
    ((e.evaluateM q_id_list predict_ids_list).1.evaluateM q_id_list predict_ids_list).2 =
      (e.evaluateM q_id_list predict_ids_list).2 :=
  ⟨rfl, rfl, rfl, rfl, rfl, rfl, rfl, rfl, rfl⟩

end Evaluate
